import Mathlib

/-!
# lex-demo: the two bot handlers of `main.go`

A shallow embedding of `createBot` and `updateBot`.

Modelling conventions, applied uniformly:

* A Go pointer field of an SDK structure (`*string`, `*bool`, `*int64`, `*Prompt`, ...) is an
  `Option`: `nil` is `none`, `aws.String v` is `some v`.
* A Go slice is a `List`; the nil slice and the empty slice are both `[]`, and a slice of
  pointers that the code only ever fills with fresh `&T{...}` values is a list of values.
* A Go `error` is represented by its message (`err.Error()`), a `String`.
* Only the fields of the SDK structures that `main.go` reads or writes are kept; every other
  field keeps its zero value on both paths.
* The SDK is a parameter `svc`: the construction of the session and the four operations of
  the client, over an arbitrary service state.  A "remote call" is a call of one of the four
  operations; the handler records each call, with the reply it got, in a trace.
* `session.Must` (lines 39 and 97) panics when `session.NewSession` returns an error.  The
  engine is `gin.Default()` (line 19), whose recovery middleware answers a panic of a handler
  with status 500 and no body; the handlers are modelled under that engine.
* The result of `ctx.Bind(&body)` is an input: either the bind error or the bound body.
-/

namespace LexDemo

/-! ## SDK structures -/

/-- SDK `Message`: the fields set at lines 43-46. -/
structure Message where
  Content : Option String
  ContentType : Option String
  deriving DecidableEq, Repr

/-- SDK `Prompt`: the fields set at lines 59 and 151. -/
structure Prompt where
  Messages : List Message
  MaxAttempts : Option Int
  deriving DecidableEq, Repr

/-- SDK `Statement`: the field set at lines 60, 120-122 and 152. -/
structure Statement where
  Messages : List Message
  deriving DecidableEq, Repr

/-- SDK `Intent`: the name and version pair appended at line 130. -/
structure Intent where
  IntentName : Option String
  IntentVersion : Option String
  deriving DecidableEq, Repr

/-- SDK `FulfillmentActivity`: the field set at line 124. -/
structure FulfillmentActivity where
  Type_ : Option String
  deriving DecidableEq, Repr

/-- SDK `PutBotInput`: the fields set at lines 55-61 and 145-153. -/
structure PutBotInput where
  Checksum : Option String := none
  Intents : List Intent := []
  Name : Option String
  ChildDirected : Option Bool
  Locale : Option String
  ClarificationPrompt : Option Prompt
  AbortStatement : Option Statement
  deriving DecidableEq, Repr

/-- SDK `PutBotAliasInput`: the fields set at lines 65-69. -/
structure PutBotAliasInput where
  BotName : Option String
  BotVersion : Option String
  Name : Option String
  deriving DecidableEq, Repr

/-- SDK `GetBotInput`: the fields set at lines 99-102. -/
structure GetBotInput where
  Name : Option String
  VersionOrAlias : Option String
  deriving DecidableEq, Repr

/-- SDK `GetBotOutput`: the fields read at lines 130 and 146-150, and the abort and
clarification content of the fetched bot, which `updateBot` never reads. -/
structure GetBotOutput where
  Checksum : Option String
  Intents : List Intent
  Name : Option String
  ChildDirected : Option Bool
  Locale : Option String
  ClarificationPrompt : Option Prompt
  AbortStatement : Option Statement
  deriving DecidableEq, Repr

/-- SDK `PutIntentInput`: the fields set at lines 118-125. -/
structure PutIntentInput where
  Name : Option String
  ConclusionStatement : Option Statement
  SampleUtterances : List String
  FulfillmentActivity : Option FulfillmentActivity
  deriving DecidableEq, Repr

/-- SDK `PutIntentOutput`: the fields read at line 130. -/
structure PutIntentOutput where
  Name : Option String
  Version : Option String
  deriving DecidableEq, Repr

/-! ## The remote service, the trace and the HTTP response -/

/-- The SDK as the handlers use it.  `NewSession` is the outcome of `session.NewSession`,
of which only the error is kept: the session itself is handed to the client and not read.  Each
operation of the client takes the request and the service state and returns Go's
`(output, err)` together with the next state.  The outputs of `PutBot` and `PutBotAlias` are
discarded by both handlers (`_, err = ...`), so only their error is kept. -/
structure LexModelBuildingService (σ : Type) where
  NewSession : σ → Except String Unit
  GetBot : GetBotInput → σ → Except String GetBotOutput × σ
  PutIntent : PutIntentInput → σ → Except String PutIntentOutput × σ
  PutBot : PutBotInput → σ → Except String Unit × σ
  PutBotAlias : PutBotAliasInput → σ → Except String Unit × σ

/-- An outbound request: which operation was called, with which input. -/
inductive Request where
  | GetBot (input : GetBotInput)
  | PutIntent (input : PutIntentInput)
  | PutBot (input : PutBotInput)
  | PutBotAlias (input : PutBotAliasInput)
  deriving DecidableEq, Repr

/-- What the service answered. -/
inductive Reply where
  | GetBot (output : GetBotOutput)
  | PutIntent (output : PutIntentOutput)
  | PutBot
  | PutBotAlias
  | failure (err : String)
  deriving DecidableEq, Repr

/-- One remote call: the request and the reply. -/
structure Call where
  request : Request
  reply : Reply
  deriving DecidableEq, Repr

/-- The four operations. -/
inductive Op where
  | GetBot | PutIntent | PutBot | PutBotAlias
  deriving DecidableEq, Repr

/-- The operation of a request. -/
def Request.op : Request → Op
  | .GetBot _ => .GetBot
  | .PutIntent _ => .PutIntent
  | .PutBot _ => .PutBot
  | .PutBotAlias _ => .PutBotAlias

/-- The error of a reply, `none` when the call succeeded. -/
def Reply.err : Reply → Option String
  | .failure e => some e
  | _ => none

/-- A call succeeded when its reply carries no error. -/
def Call.succeeded (c : Call) : Bool := c.reply.err.isNone

/-- The JSON envelope `gin.H{"error": ..., "message": ...}`; `error` is `none` for JSON
`null`. -/
structure Envelope where
  error : Option String
  message : String
  deriving DecidableEq, Repr

/-- An HTTP response: the status code and the envelope written by `ctx.JSON`; the body is
`none` when the recovery middleware answered in place of a handler that panicked. -/
structure Response where
  status : Nat
  body : Option Envelope
  deriving DecidableEq, Repr

/-- What a handler did: its response, the remote calls in the order issued, and the service
state it left. -/
structure Handled (σ : Type) where
  response : Response
  trace : List Call
  state : σ

/-- Go `http.StatusOK`. -/
def StatusOK : Nat := 200
/-- Go `http.StatusBadRequest`. -/
def StatusBadRequest : Nat := 400
/-- Go `http.StatusInternalServerError`. -/
def StatusInternalServerError : Nat := 500

/-! ## Request bodies -/

/-- The anonymous `body` structure of `createBot` (lines 27-33). -/
structure CreateBotBody where
  Name : String
  ChildDirected : Bool
  Locale : String
  AbortMessages : List String
  ClarificationPrompts : List String
  deriving DecidableEq, Repr

/-- The anonymous `body` structure of `updateBot` (lines 81-91). -/
structure UpdateBotBody where
  Name : String
  ChildDirected : Bool
  Locale : String
  Messages : List String
  Utterances : List String
  IntentName : String
  AbortMessages : List String
  ClarificationPrompts : List String
  Version : String
  deriving DecidableEq, Repr

/-! ## The handlers -/

/-- The message loop, written five times in `main.go` (lines 41-47, 48-54, 107-113, 131-137,
138-144): start from the nil slice and append one plain-text message per string. -/
def plainTextMessages (vals : List String) : List Message :=
  vals.foldl
    (fun msgs val => msgs ++ [{ Content := some val, ContentType := some "PlainText" }]) []

/-- The utterance loop (lines 114-117): start from the nil slice and append each string. -/
def sampleUtterances (vals : List String) : List String :=
  vals.foldl (fun utterances val => utterances ++ [val]) []

/-- Handler `createBot` (lines 26-77), under the engine of line 19.  A panic of `session.Must`
(line 39) leaves the handler before any call; the recovery middleware then answers 500 without
a body. -/
def createBot {σ : Type} (svc : LexModelBuildingService σ)
    (bound : Except String CreateBotBody) (s : σ) : Handled σ :=
  match bound with
  | .error err =>
    { response := ⟨StatusBadRequest, some ⟨some err, "Validation Error."⟩⟩
      trace := []
      state := s }
  | .ok body =>
    match svc.NewSession s with
    | .error _ =>
      { response := ⟨StatusInternalServerError, none⟩, trace := [], state := s }
    | .ok _ =>
      let clarificationPrompts := plainTextMessages body.ClarificationPrompts
      let abortMessages := plainTextMessages body.AbortMessages
      let putBot : PutBotInput :=
        { Name := some body.Name
          ChildDirected := some body.ChildDirected
          Locale := some body.Locale
          ClarificationPrompt :=
            some { Messages := clarificationPrompts, MaxAttempts := some 5 }
          AbortStatement := some { Messages := abortMessages } }
      match svc.PutBot putBot s with
      | (.error err, s1) =>
        { response := ⟨StatusInternalServerError, some ⟨some err, "Server Error."⟩⟩
          trace := [⟨.PutBot putBot, .failure err⟩]
          state := s1 }
      | (.ok _, s1) =>
        let putBotAlias : PutBotAliasInput :=
          { BotName := some body.Name
            BotVersion := some "$LATEST"
            Name := some body.Name }
        match svc.PutBotAlias putBotAlias s1 with
        | (.error err, s2) =>
          { response := ⟨StatusInternalServerError, some ⟨some err, "Server Error."⟩⟩
            trace := [⟨.PutBot putBot, .PutBot⟩, ⟨.PutBotAlias putBotAlias, .failure err⟩]
            state := s2 }
        | (.ok _, s2) =>
          { response := ⟨StatusOK, some ⟨none, "New Bot Created."⟩⟩
            trace := [⟨.PutBot putBot, .PutBot⟩, ⟨.PutBotAlias putBotAlias, .PutBotAlias⟩]
            state := s2 }

/-- Handler `updateBot` (lines 80-162), under the engine of line 19.  A panic of
`session.Must` (line 97) leaves the handler before any call; the recovery middleware then
answers 500 without a body. -/
def updateBot {σ : Type} (svc : LexModelBuildingService σ)
    (bound : Except String UpdateBotBody) (s : σ) : Handled σ :=
  match bound with
  | .error err =>
    { response := ⟨StatusBadRequest, some ⟨some err, "Validation Error."⟩⟩
      trace := []
      state := s }
  | .ok body =>
    match svc.NewSession s with
    | .error _ =>
      { response := ⟨StatusInternalServerError, none⟩, trace := [], state := s }
    | .ok _ =>
      let input : GetBotInput :=
        { Name := some body.Name
          VersionOrAlias := some body.Version }
      match svc.GetBot input s with
      | (.error err, s1) =>
        { response := ⟨StatusInternalServerError, some ⟨some err, "Server Error."⟩⟩
          trace := [⟨.GetBot input, .failure err⟩]
          state := s1 }
      | (.ok bot, s1) =>
        let messages := plainTextMessages body.Messages
        let utterances := sampleUtterances body.Utterances
        let intent : PutIntentInput :=
          { Name := some body.IntentName
            ConclusionStatement := some { Messages := messages }
            SampleUtterances := utterances
            FulfillmentActivity := some { Type_ := some "ReturnIntent" } }
        match svc.PutIntent intent s1 with
        | (.error err, s2) =>
          { response := ⟨StatusInternalServerError, some ⟨some err, "Server Error."⟩⟩
            trace := [⟨.GetBot input, .GetBot bot⟩, ⟨.PutIntent intent, .failure err⟩]
            state := s2 }
        | (.ok result, s2) =>
          let intents :=
            bot.Intents ++ [{ IntentName := result.Name, IntentVersion := result.Version }]
          let clarificationPrompts := plainTextMessages body.ClarificationPrompts
          let abortMessages := plainTextMessages body.AbortMessages
          let putBot : PutBotInput :=
            { Checksum := bot.Checksum
              Intents := intents
              Name := bot.Name
              ChildDirected := bot.ChildDirected
              Locale := bot.Locale
              ClarificationPrompt :=
                some { Messages := clarificationPrompts, MaxAttempts := some 5 }
              AbortStatement := some { Messages := abortMessages } }
          match svc.PutBot putBot s2 with
          | (.error err, s3) =>
            { response := ⟨StatusInternalServerError, some ⟨some err, "Server Error."⟩⟩
              trace := [⟨.GetBot input, .GetBot bot⟩, ⟨.PutIntent intent, .PutIntent result⟩,
                ⟨.PutBot putBot, .failure err⟩]
              state := s3 }
          | (.ok _, s3) =>
            { response := ⟨StatusOK, some ⟨none, "Bot Updated with new intent."⟩⟩
              trace := [⟨.GetBot input, .GetBot bot⟩, ⟨.PutIntent intent, .PutIntent result⟩,
                ⟨.PutBot putBot, .PutBot⟩]
              state := s3 }

/-- An inbound request as routed by `main` (lines 20-21): `POST /` goes to `createBot` and
`PUT /` to `updateBot`; each carries what `ctx.Bind` makes of its body. -/
inductive Inbound where
  | POST (bound : Except String CreateBotBody)
  | PUT (bound : Except String UpdateBotBody)

/-- The bind error of an inbound request, `none` when the body was bound. -/
def Inbound.bindError : Inbound → Option String
  | .POST (.error err) => some err
  | .PUT (.error err) => some err
  | _ => none

/-- The routes of `main` (lines 20-21). -/
def handle {σ : Type} (svc : LexModelBuildingService σ) : Inbound → σ → Handled σ
  | .POST bound => createBot svc bound
  | .PUT bound => updateBot svc bound

/-- The `abort_messages` of the bound body of an inbound request. -/
def Inbound.abortMessages : Inbound → List String
  | .POST (.ok body) => body.AbortMessages
  | .PUT (.ok body) => body.AbortMessages
  | _ => []

/-- The `clarification_prompts` of the bound body of an inbound request. -/
def Inbound.clarificationPrompts : Inbound → List String
  | .POST (.ok body) => body.ClarificationPrompts
  | .PUT (.ok body) => body.ClarificationPrompts
  | _ => []

/-- One call of the client: the request goes to its operation, and Go's `(output, err)`
becomes the reply. -/
def LexModelBuildingService.call {σ : Type} (svc : LexModelBuildingService σ) :
    Request → σ → Reply × σ
  | .GetBot input, s =>
    match svc.GetBot input s with
    | (.ok bot, s1) => (.GetBot bot, s1)
    | (.error err, s1) => (.failure err, s1)
  | .PutIntent input, s =>
    match svc.PutIntent input s with
    | (.ok result, s1) => (.PutIntent result, s1)
    | (.error err, s1) => (.failure err, s1)
  | .PutBot input, s =>
    match svc.PutBot input s with
    | (.ok _, s1) => (.PutBot, s1)
    | (.error err, s1) => (.failure err, s1)
  | .PutBotAlias input, s =>
    match svc.PutBotAlias input s with
    | (.ok _, s1) => (.PutBotAlias, s1)
    | (.error err, s1) => (.failure err, s1)

/-- The calls obtained by sending the requests to the service one after the other, and the
state the service ends in. -/
def replay {σ : Type} (svc : LexModelBuildingService σ) : List Request → σ → List Call × σ
  | [], s => ([], s)
  | request :: requests, s =>
    ((⟨request, (svc.call request s).1⟩ : Call) :: (replay svc requests (svc.call request s).2).1,
      (replay svc requests (svc.call request s).2).2)

/-- The service `svc` with the abort and clarification content of every fetched bot replaced;
nothing else of the service changes. -/
def withFetchedContent {σ : Type} (svc : LexModelBuildingService σ)
    (clarification : Option Prompt) (abort : Option Statement) : LexModelBuildingService σ :=
  { svc with
    GetBot := fun input s =>
      match svc.GetBot input s with
      | (.ok bot, s1) =>
        (.ok { bot with ClarificationPrompt := clarification, AbortStatement := abort }, s1)
      | (.error err, s1) => (.error err, s1) }

/-! ## Concrete services and bodies used to instantiate the theorems -/

/-- A fixed outcome of the session construction and a fixed answer for each of the four
operations. -/
structure Script where
  newSession : Except String Unit
  getBot : Except String GetBotOutput
  putIntent : Except String PutIntentOutput
  putBot : Except String Unit
  putBotAlias : Except String Unit

/-- The service that answers by script; its state counts the calls received. -/
def Script.service (p : Script) : LexModelBuildingService Nat where
  NewSession _ := p.newSession
  GetBot _ n := (p.getBot, n + 1)
  PutIntent _ n := (p.putIntent, n + 1)
  PutBot _ n := (p.putBot, n + 1)
  PutBotAlias _ n := (p.putBotAlias, n + 1)

/-- A stored bot with two intents, whose name and locale differ from those of `pizzaUpdate`. -/
def storedBot : GetBotOutput :=
  { Checksum := some "c-17"
    Intents := [⟨some "Greet", some "1"⟩, ⟨some "Bye", some "4"⟩]
    Name := some "PizzaBot"
    ChildDirected := some false
    Locale := some "en-US"
    ClarificationPrompt := some ⟨[⟨some "old prompt", some "PlainText"⟩], some 2⟩
    AbortStatement := some ⟨[⟨some "old abort", some "PlainText"⟩]⟩ }

/-- The script in which the session is built and every operation succeeds. -/
def allOk : Script :=
  { newSession := .ok ()
    getBot := .ok storedBot
    putIntent := .ok ⟨some "Order", some "3"⟩
    putBot := .ok ()
    putBotAlias := .ok () }

/-- The script in which the bot resubmission and the alias publication fail. -/
def lateFailure : Script :=
  { allOk with putBot := .error "checksum mismatch", putBotAlias := .error "throttled" }

/-- The script in which the session cannot be built; the operations would all succeed. -/
def noSession : Script :=
  { allOk with newSession := .error "failed to load environment config" }

/-- A create body. -/
def pizzaCreate : CreateBotBody :=
  { Name := "Pizza"
    ChildDirected := true
    Locale := "en-GB"
    AbortMessages := ["bye", "stop"]
    ClarificationPrompts := ["again?"] }

/-- An update body. -/
def pizzaUpdate : UpdateBotBody :=
  { Name := "Pizza"
    ChildDirected := true
    Locale := "en-GB"
    Messages := ["done", "thanks"]
    Utterances := ["order pizza", "pizza please"]
    IntentName := "Order"
    AbortMessages := ["bye", "stop"]
    ClarificationPrompts := ["again?"]
    Version := "$LATEST" }

/-! ## Auxiliary lemmas -/

theorem foldl_append_singleton {α β : Type} (f : α → β) (vals : List α) (init : List β) :
    vals.foldl (fun acc val => acc ++ [f val]) init = init ++ vals.map f := by
  induction vals generalizing init with
  | nil => simp
  | cons v vs ih => simp [ih]

theorem plainTextMessages_eq_map (vals : List String) :
    plainTextMessages vals
      = vals.map (fun val => { Content := some val, ContentType := some "PlainText" }) := by
  unfold plainTextMessages
  rw [foldl_append_singleton (fun val : String =>
    ({ Content := some val, ContentType := some "PlainText" } : Message))]
  simp

theorem sampleUtterances_eq (vals : List String) : sampleUtterances vals = vals := by
  unfold sampleUtterances
  rw [foldl_append_singleton (fun val : String => val)]
  simp

/-- The four ways `createBot` can go on a bound body. -/
theorem createBot_shape {σ : Type} (svc : LexModelBuildingService σ) (body : CreateBotBody)
    (s : σ) :
    ∃ (putBot : PutBotInput) (putBotAlias : PutBotAliasInput),
      putBot =
        { Name := some body.Name
          ChildDirected := some body.ChildDirected
          Locale := some body.Locale
          ClarificationPrompt :=
            some { Messages := plainTextMessages body.ClarificationPrompts,
                   MaxAttempts := some 5 }
          AbortStatement := some { Messages := plainTextMessages body.AbortMessages } } ∧
      putBotAlias =
        { BotName := some body.Name, BotVersion := some "$LATEST", Name := some body.Name } ∧
      (((∃ err, svc.NewSession s = .error err) ∧
          (createBot svc (.ok body) s).response = ⟨500, none⟩ ∧
          (createBot svc (.ok body) s).trace = []) ∨
       (∃ err,
          (createBot svc (.ok body) s).response = ⟨500, some ⟨some err, "Server Error."⟩⟩ ∧
          (createBot svc (.ok body) s).trace = [⟨.PutBot putBot, .failure err⟩]) ∨
       (∃ err,
          (createBot svc (.ok body) s).response = ⟨500, some ⟨some err, "Server Error."⟩⟩ ∧
          (createBot svc (.ok body) s).trace
            = [⟨.PutBot putBot, .PutBot⟩, ⟨.PutBotAlias putBotAlias, .failure err⟩]) ∨
       ((createBot svc (.ok body) s).response = ⟨200, some ⟨none, "New Bot Created."⟩⟩ ∧
          (createBot svc (.ok body) s).trace
            = [⟨.PutBot putBot, .PutBot⟩, ⟨.PutBotAlias putBotAlias, .PutBotAlias⟩])) := by
  refine ⟨_, _, rfl, rfl, ?_⟩
  simp only [createBot]
  split
  next err hs => exact Or.inl ⟨⟨err, hs⟩, rfl, rfl⟩
  next =>
    refine Or.inr ?_
    split
    · exact Or.inl ⟨_, rfl, rfl⟩
    · split
      · exact Or.inr (Or.inl ⟨_, rfl, rfl⟩)
      · exact Or.inr (Or.inr ⟨rfl, rfl⟩)

/-- The five ways `updateBot` can go on a bound body. -/
theorem updateBot_shape {σ : Type} (svc : LexModelBuildingService σ) (body : UpdateBotBody)
    (s : σ) :
    ∃ (input : GetBotInput) (intent : PutIntentInput),
      input = { Name := some body.Name, VersionOrAlias := some body.Version } ∧
      intent =
        { Name := some body.IntentName
          ConclusionStatement := some { Messages := plainTextMessages body.Messages }
          SampleUtterances := sampleUtterances body.Utterances
          FulfillmentActivity := some { Type_ := some "ReturnIntent" } } ∧
      (((∃ err, svc.NewSession s = .error err) ∧
          (updateBot svc (.ok body) s).response = ⟨500, none⟩ ∧
          (updateBot svc (.ok body) s).trace = []) ∨
       (∃ err,
          (updateBot svc (.ok body) s).response = ⟨500, some ⟨some err, "Server Error."⟩⟩ ∧
          (updateBot svc (.ok body) s).trace = [⟨.GetBot input, .failure err⟩]) ∨
       (∃ bot err,
          (updateBot svc (.ok body) s).response = ⟨500, some ⟨some err, "Server Error."⟩⟩ ∧
          (updateBot svc (.ok body) s).trace
            = [⟨.GetBot input, .GetBot bot⟩, ⟨.PutIntent intent, .failure err⟩]) ∨
       (∃ (bot : GetBotOutput) (result : PutIntentOutput) (putBot : PutBotInput),
          putBot =
            { Checksum := bot.Checksum
              Intents := bot.Intents ++ [⟨result.Name, result.Version⟩]
              Name := bot.Name
              ChildDirected := bot.ChildDirected
              Locale := bot.Locale
              ClarificationPrompt :=
                some { Messages := plainTextMessages body.ClarificationPrompts,
                       MaxAttempts := some 5 }
              AbortStatement := some { Messages := plainTextMessages body.AbortMessages } } ∧
          ((∃ err,
              (updateBot svc (.ok body) s).response
                = ⟨500, some ⟨some err, "Server Error."⟩⟩ ∧
              (updateBot svc (.ok body) s).trace
                = [⟨.GetBot input, .GetBot bot⟩, ⟨.PutIntent intent, .PutIntent result⟩,
                    ⟨.PutBot putBot, .failure err⟩]) ∨
           ((updateBot svc (.ok body) s).response
                = ⟨200, some ⟨none, "Bot Updated with new intent."⟩⟩ ∧
              (updateBot svc (.ok body) s).trace
                = [⟨.GetBot input, .GetBot bot⟩, ⟨.PutIntent intent, .PutIntent result⟩,
                    ⟨.PutBot putBot, .PutBot⟩])))) := by
  refine ⟨_, _, rfl, rfl, ?_⟩
  simp only [updateBot]
  split
  next err hs => exact Or.inl ⟨⟨err, hs⟩, rfl, rfl⟩
  next =>
    refine Or.inr ?_
    split
    next err _ _ => exact Or.inl ⟨err, rfl, rfl⟩
    next bot _ _ =>
      split
      next err _ _ => exact Or.inr (Or.inl ⟨bot, err, rfl, rfl⟩)
      next result _ _ =>
        refine Or.inr (Or.inr ⟨bot, result, _, rfl, ?_⟩)
        split
        next err _ _ => exact Or.inl ⟨err, rfl, rfl⟩
        next => exact Or.inr ⟨rfl, rfl⟩

/-- The trace is a faithful log: sending its requests to the service, in order and from the
initial state, gives back its replies and the final state of the run. -/
theorem handle_trace_replays {σ : Type} (svc : LexModelBuildingService σ) (req : Inbound)
    (s : σ) :
    replay svc ((handle svc req s).trace.map Call.request) s
      = ((handle svc req s).trace, (handle svc req s).state) := by
  rcases req with (e0 | body) | (e0 | body)
  · rfl
  · simp only [handle, createBot]
    split
    · rfl
    · split
      next err s1 h1 => simp [replay, LexModelBuildingService.call, h1]
      next u s1 h1 =>
        split
        next err s2 h2 => simp [replay, LexModelBuildingService.call, h1, h2]
        next u2 s2 h2 => simp [replay, LexModelBuildingService.call, h1, h2]
  · rfl
  · simp only [handle, updateBot]
    split
    · rfl
    · split
      next err s1 h1 => simp [replay, LexModelBuildingService.call, h1]
      next bot s1 h1 =>
        split
        next err s2 h2 => simp [replay, LexModelBuildingService.call, h1, h2]
        next result s2 h2 =>
          split
          next err s3 h3 => simp [replay, LexModelBuildingService.call, h1, h2, h3]
          next u s3 h3 => simp [replay, LexModelBuildingService.call, h1, h2, h3]

/-! ## The create workflow -/

/-- C1, for a session built without error: on a bound body, when `session.NewSession`
returns no error (`session.Must` does not panic), `createBot` first issues a `PutBot` call carrying the name of the body and
clarification max-attempts 5; when that call succeeds exactly one `PutBotAlias` call follows,
whose alias name and bot name are the name of the body and whose bot version is `$LATEST`;
when it fails nothing follows.  The trace holds exactly one `PutBot` call and at most one
`PutBotAlias` call, the `PutBot` call first. -/
theorem createBot_call_sequence {σ : Type} (svc : LexModelBuildingService σ)
    (body : CreateBotBody) (s : σ) (hsession : svc.NewSession s = .ok ()) :
    ∃ (input : PutBotInput) (reply : Reply) (rest : List Call),
      (createBot svc (.ok body) s).trace = ⟨.PutBot input, reply⟩ :: rest ∧
      input.Name = some body.Name ∧
      input.ClarificationPrompt.bind Prompt.MaxAttempts = some 5 ∧
      ((reply = .PutBot ∧ ∃ reply2,
          rest = [⟨.PutBotAlias ⟨some body.Name, some "$LATEST", some body.Name⟩, reply2⟩]) ∨
        ((∃ err, reply = .failure err) ∧ rest = [])) ∧
      ((createBot svc (.ok body) s).trace.map (fun c => c.request.op)).count .PutBot = 1 ∧
      ((createBot svc (.ok body) s).trace.map (fun c => c.request.op)).count .PutBotAlias
        ≤ 1 := by
  obtain ⟨putBot, putBotAlias, hp, ha, h⟩ := createBot_shape svc body s
  subst hp ha
  rcases h with ⟨⟨err, hs⟩, -, -⟩ | ⟨err, _, ht⟩ | ⟨err, _, ht⟩ | ⟨_, ht⟩
  · rw [hsession] at hs
    cases hs
  all_goals
    exact ⟨_, _, _, ht, rfl, rfl, by simp, by simp [ht, Request.op], by simp [ht, Request.op]⟩

theorem createBot_call_sequence_witness :
    allOk.service.NewSession 0 = .ok () ∧
    ∃ (input : PutBotInput) (reply : Reply) (rest : List Call),
      (createBot allOk.service (.ok pizzaCreate) 0).trace = ⟨.PutBot input, reply⟩ :: rest ∧
      input.Name = some pizzaCreate.Name ∧
      input.ClarificationPrompt.bind Prompt.MaxAttempts = some 5 ∧
      ((reply = .PutBot ∧ ∃ reply2,
          rest = [⟨.PutBotAlias
            ⟨some pizzaCreate.Name, some "$LATEST", some pizzaCreate.Name⟩, reply2⟩]) ∨
        ((∃ err, reply = .failure err) ∧ rest = [])) ∧
      ((createBot allOk.service (.ok pizzaCreate) 0).trace.map
          (fun c => c.request.op)).count .PutBot = 1 ∧
      ((createBot allOk.service (.ok pizzaCreate) 0).trace.map
          (fun c => c.request.op)).count .PutBotAlias ≤ 1 :=
  ⟨rfl, createBot_call_sequence allOk.service pizzaCreate 0 rfl⟩

/-- C1 does not hold for every bound body: the body `pizzaCreate` is bound, yet when the
session cannot be built `createBot` issues no call at all and the answer is a bare 500; its trace does not start
with a `PutBot` call and holds no `PutBot` call. -/
theorem createBot_call_sequence_fails_without_session :
    (createBot noSession.service (.ok pizzaCreate) 0).trace = [] ∧
    (createBot noSession.service (.ok pizzaCreate) 0).response = ⟨500, none⟩ ∧
    ((createBot noSession.service (.ok pizzaCreate) 0).trace.map
        (fun c => c.request.op)).count .PutBot = 0 ∧
    ¬ ∃ (input : PutBotInput) (reply : Reply) (rest : List Call),
      (createBot noSession.service (.ok pizzaCreate) 0).trace = ⟨.PutBot input, reply⟩ :: rest ∧
      input.Name = some pizzaCreate.Name ∧
      input.ClarificationPrompt.bind Prompt.MaxAttempts = some 5 ∧
      ((reply = .PutBot ∧ ∃ reply2,
          rest = [⟨.PutBotAlias
            ⟨some pizzaCreate.Name, some "$LATEST", some pizzaCreate.Name⟩, reply2⟩]) ∨
        ((∃ err, reply = .failure err) ∧ rest = [])) ∧
      ((createBot noSession.service (.ok pizzaCreate) 0).trace.map
          (fun c => c.request.op)).count .PutBot = 1 ∧
      ((createBot noSession.service (.ok pizzaCreate) 0).trace.map
          (fun c => c.request.op)).count .PutBotAlias ≤ 1 := by
  have ht : (createBot noSession.service (.ok pizzaCreate) 0).trace = [] := rfl
  refine ⟨rfl, rfl, rfl, ?_⟩
  rintro ⟨input, reply, rest, h, -⟩
  rw [ht] at h
  cases h

/-! ## Errors and success, for both handlers -/

/-- C2: when binding the body fails, on either route, the response has status 400 (with the
bind error and the message `Validation Error.`) and no remote call is issued. -/
theorem bind_failure_is_400_without_calls {σ : Type} (svc : LexModelBuildingService σ)
    (req : Inbound) (err : String) (s : σ) (hbind : req.bindError = some err) :
    (handle svc req s).response.status = 400 ∧
      (handle svc req s).response = ⟨400, some ⟨some err, "Validation Error."⟩⟩ ∧
      (handle svc req s).trace = [] := by
  rcases req with (e | body) | (e | body) <;> simp [Inbound.bindError] at hbind
  · subst hbind
    exact ⟨rfl, rfl, rfl⟩
  · subst hbind
    exact ⟨rfl, rfl, rfl⟩

theorem bind_failure_is_400_without_calls_witness :
    ((Inbound.POST (.error "unexpected EOF")).bindError = some "unexpected EOF" ∧
      (handle allOk.service (.POST (.error "unexpected EOF")) 0).response.status = 400 ∧
      (handle allOk.service (.POST (.error "unexpected EOF")) 0).trace = []) ∧
    ((Inbound.PUT (.error "unexpected EOF")).bindError = some "unexpected EOF" ∧
      (handle allOk.service (.PUT (.error "unexpected EOF")) 0).response.status = 400 ∧
      (handle allOk.service (.PUT (.error "unexpected EOF")) 0).trace = []) :=
  ⟨⟨rfl,
      (bind_failure_is_400_without_calls allOk.service
        (.POST (.error "unexpected EOF")) "unexpected EOF" 0 rfl).1,
      (bind_failure_is_400_without_calls allOk.service
        (.POST (.error "unexpected EOF")) "unexpected EOF" 0 rfl).2.2⟩,
    ⟨rfl,
      (bind_failure_is_400_without_calls allOk.service
        (.PUT (.error "unexpected EOF")) "unexpected EOF" 0 rfl).1,
      (bind_failure_is_400_without_calls allOk.service
        (.PUT (.error "unexpected EOF")) "unexpected EOF" 0 rfl).2.2⟩⟩

/-- C3: on either route with a bound body, when the `k`-th remote call (counted from 1) fails
with error `e`, the response is status 500 with error `e` and message `Server Error.`, and the
trace has exactly `k` calls: the failed call is the last one issued. -/
theorem remote_failure_is_500_and_last {σ : Type} (svc : LexModelBuildingService σ)
    (req : Inbound) (s : σ) (k : Nat) (c : Call) (e : String)
    (hbind : req.bindError = none) (hk : 0 < k)
    (hcall : (handle svc req s).trace[k - 1]? = some c) (hfail : c.reply = .failure e) :
    (handle svc req s).response = ⟨500, some ⟨some e, "Server Error."⟩⟩ ∧
      (handle svc req s).trace.length = k := by
  obtain ⟨j, rfl⟩ : ∃ j, k = j + 1 := ⟨k - 1, by omega⟩
  rcases req with (e0 | body) | (e0 | body)
  · simp [Inbound.bindError] at hbind
  · obtain ⟨putBot, putBotAlias, -, -, h⟩ := createBot_shape svc body s
    simp only [handle, Nat.add_sub_cancel] at hcall ⊢
    rcases h with ⟨-, hr, ht⟩ | ⟨err, hr, ht⟩ | ⟨err, hr, ht⟩ | ⟨hr, ht⟩ <;> rw [ht] at hcall <;>
      rw [hr, ht] <;> rcases j with _ | _ | j <;> simp at hcall <;> subst hcall <;>
      simp_all
  · simp [Inbound.bindError] at hbind
  · obtain ⟨input, intent, -, -, h⟩ := updateBot_shape svc body s
    simp only [handle, Nat.add_sub_cancel] at hcall ⊢
    rcases h with ⟨-, hr, ht⟩ | ⟨err, hr, ht⟩ | ⟨bot, err, hr, ht⟩ |
        ⟨bot, result, putBot, -, ⟨err, hr, ht⟩ | ⟨hr, ht⟩⟩ <;> rw [ht] at hcall <;>
      rw [hr, ht] <;> rcases j with _ | _ | _ | j <;> simp at hcall <;> subst hcall <;>
      simp_all

theorem remote_failure_is_500_and_last_witness :
    ((Inbound.PUT (.ok pizzaUpdate)).bindError = none ∧ 0 < 3 ∧
      (handle lateFailure.service (.PUT (.ok pizzaUpdate)) 0).trace[3 - 1]?
        = some ⟨.PutBot
            { Checksum := some "c-17"
              Intents := [⟨some "Greet", some "1"⟩, ⟨some "Bye", some "4"⟩,
                ⟨some "Order", some "3"⟩]
              Name := some "PizzaBot"
              ChildDirected := some false
              Locale := some "en-US"
              ClarificationPrompt := some ⟨[⟨some "again?", some "PlainText"⟩], some 5⟩
              AbortStatement :=
                some ⟨[⟨some "bye", some "PlainText"⟩, ⟨some "stop", some "PlainText"⟩]⟩ },
          .failure "checksum mismatch"⟩) ∧
    (handle lateFailure.service (.PUT (.ok pizzaUpdate)) 0).response
        = ⟨500, some ⟨some "checksum mismatch", "Server Error."⟩⟩ ∧
      (handle lateFailure.service (.PUT (.ok pizzaUpdate)) 0).trace.length = 3 :=
  ⟨⟨rfl, by decide, rfl⟩,
    remote_failure_is_500_and_last lateFailure.service (.PUT (.ok pizzaUpdate)) 0 3 _
      "checksum mismatch" rfl (by decide) rfl rfl⟩

/-- C7: on a bound body, `createBot` answers 200 with a null error and `New Bot Created.`
exactly when its trace is a `PutBot` call and a `PutBotAlias` call that both succeeded;
`updateBot` answers 200 with a null error and `Bot Updated with new intent.` exactly when its
trace is a `GetBot`, a `PutIntent` and a `PutBot` call, in that order, that all succeeded. -/
theorem success_iff_all_calls_succeed {σ : Type} (svc : LexModelBuildingService σ)
    (cb : CreateBotBody) (ub : UpdateBotBody) (s : σ) :
    ((createBot svc (.ok cb) s).response = ⟨200, some ⟨none, "New Bot Created."⟩⟩ ↔
      ((createBot svc (.ok cb) s).trace.map (fun c => c.request.op) = [.PutBot, .PutBotAlias] ∧
        (createBot svc (.ok cb) s).trace.all Call.succeeded = true)) ∧
    ((updateBot svc (.ok ub) s).response = ⟨200, some ⟨none, "Bot Updated with new intent."⟩⟩ ↔
      ((updateBot svc (.ok ub) s).trace.map (fun c => c.request.op)
          = [.GetBot, .PutIntent, .PutBot] ∧
        (updateBot svc (.ok ub) s).trace.all Call.succeeded = true)) := by
  constructor
  · obtain ⟨putBot, putBotAlias, -, -, h⟩ := createBot_shape svc cb s
    rcases h with ⟨-, hr, ht⟩ | ⟨err, hr, ht⟩ | ⟨err, hr, ht⟩ | ⟨hr, ht⟩ <;>
      simp [hr, ht, Request.op, Call.succeeded, Reply.err]
  · obtain ⟨input, intent, -, -, h⟩ := updateBot_shape svc ub s
    rcases h with ⟨-, hr, ht⟩ | ⟨err, hr, ht⟩ | ⟨bot, err, hr, ht⟩ |
        ⟨bot, result, putBot, -, ⟨err, hr, ht⟩ | ⟨hr, ht⟩⟩ <;>
      simp [hr, ht, Request.op, Call.succeeded, Reply.err]

/-! ## The update workflow -/

/-- C4: when the fetch returns a bot with intent list `L` and the intent definition succeeds
with a name and a version, `updateBot` resubmits the bot with the intent list `L` followed by
that one pair: one element longer, the first elements being `L` in order, the new intent
last.  A bot without intents gives a one-element list. -/
theorem updateBot_appends_new_intent {σ : Type} (svc : LexModelBuildingService σ)
    (body : UpdateBotBody) (s : σ) (fetch define : Request) (bot : GetBotOutput)
    (result : PutIntentOutput)
    (hfetch : (updateBot svc (.ok body) s).trace[0]? = some ⟨fetch, .GetBot bot⟩)
    (hdefine : (updateBot svc (.ok body) s).trace[1]? = some ⟨define, .PutIntent result⟩) :
    ∃ (input : PutBotInput) (reply : Reply),
      (updateBot svc (.ok body) s).trace[2]? = some ⟨.PutBot input, reply⟩ ∧
      input.Intents = bot.Intents ++ [⟨result.Name, result.Version⟩] ∧
      input.Intents.length = bot.Intents.length + 1 ∧
      input.Intents.take bot.Intents.length = bot.Intents ∧
      input.Intents.getLast? = some ⟨result.Name, result.Version⟩ := by
  obtain ⟨input, intent, -, -, h⟩ := updateBot_shape svc body s
  rcases h with ⟨-, -, ht⟩ | ⟨err, -, ht⟩ | ⟨bot0, err, -, ht⟩ |
      ⟨bot0, result0, putBot, hp, ⟨err, -, ht⟩ | ⟨-, ht⟩⟩ <;> rw [ht] at hfetch hdefine <;>
    simp at hfetch hdefine
  · obtain ⟨-, rfl⟩ := hfetch
    obtain ⟨-, rfl⟩ := hdefine
    exact ⟨putBot, .failure err, by rw [ht]; rfl, by simp [hp], by simp [hp], by simp [hp],
      by simp [hp]⟩
  · obtain ⟨-, rfl⟩ := hfetch
    obtain ⟨-, rfl⟩ := hdefine
    exact ⟨putBot, .PutBot, by rw [ht]; rfl, by simp [hp], by simp [hp], by simp [hp],
      by simp [hp]⟩

theorem updateBot_appends_new_intent_witness :
    ((updateBot allOk.service (.ok pizzaUpdate) 0).trace[0]?
        = some ⟨.GetBot ⟨some "Pizza", some "$LATEST"⟩, .GetBot storedBot⟩ ∧
      (updateBot allOk.service (.ok pizzaUpdate) 0).trace[1]?
        = some ⟨.PutIntent
            { Name := some "Order"
              ConclusionStatement :=
                some ⟨[⟨some "done", some "PlainText"⟩, ⟨some "thanks", some "PlainText"⟩]⟩
              SampleUtterances := ["order pizza", "pizza please"]
              FulfillmentActivity := some ⟨some "ReturnIntent"⟩ },
          .PutIntent ⟨some "Order", some "3"⟩⟩) ∧
    ∃ (input : PutBotInput) (reply : Reply),
      (updateBot allOk.service (.ok pizzaUpdate) 0).trace[2]? = some ⟨.PutBot input, reply⟩ ∧
      input.Intents
        = storedBot.Intents ++
            [⟨(⟨some "Order", some "3"⟩ : PutIntentOutput).Name,
              (⟨some "Order", some "3"⟩ : PutIntentOutput).Version⟩] ∧
      input.Intents.length = storedBot.Intents.length + 1 ∧
      input.Intents.take storedBot.Intents.length = storedBot.Intents ∧
      input.Intents.getLast?
        = some ⟨(⟨some "Order", some "3"⟩ : PutIntentOutput).Name,
            (⟨some "Order", some "3"⟩ : PutIntentOutput).Version⟩ :=
  ⟨⟨rfl, rfl⟩, updateBot_appends_new_intent allOk.service pizzaUpdate 0 _ _ storedBot
    ⟨some "Order", some "3"⟩ rfl rfl⟩

/-- C6: when `updateBot` reaches the resubmission, the `PutBot` request carries the checksum,
name, locale and child-directed flag of the bot returned by the fetch of the same request. -/
theorem updateBot_resubmits_fetched_identity {σ : Type} (svc : LexModelBuildingService σ)
    (body : UpdateBotBody) (s : σ) (fetch : Request) (bot : GetBotOutput)
    (input : PutBotInput) (reply : Reply)
    (hfetch : (updateBot svc (.ok body) s).trace[0]? = some ⟨fetch, .GetBot bot⟩)
    (hput : ⟨.PutBot input, reply⟩ ∈ (updateBot svc (.ok body) s).trace) :
    input.Checksum = bot.Checksum ∧ input.Name = bot.Name ∧ input.Locale = bot.Locale ∧
      input.ChildDirected = bot.ChildDirected := by
  obtain ⟨input0, intent, -, -, h⟩ := updateBot_shape svc body s
  rcases h with ⟨-, -, ht⟩ | ⟨err, -, ht⟩ | ⟨bot0, err, -, ht⟩ |
      ⟨bot0, result0, putBot, hp, ⟨err, -, ht⟩ | ⟨-, ht⟩⟩ <;> rw [ht] at hfetch hput <;>
    simp at hfetch hput
  · obtain ⟨-, rfl⟩ := hfetch
    obtain ⟨rfl, -⟩ := hput
    simp [hp]
  · obtain ⟨-, rfl⟩ := hfetch
    obtain ⟨rfl, -⟩ := hput
    simp [hp]

theorem updateBot_resubmits_fetched_identity_witness :
    ((updateBot lateFailure.service (.ok pizzaUpdate) 0).trace[0]?
        = some ⟨.GetBot ⟨some "Pizza", some "$LATEST"⟩, .GetBot storedBot⟩ ∧
      (⟨.PutBot
          { Checksum := some "c-17"
            Intents := [⟨some "Greet", some "1"⟩, ⟨some "Bye", some "4"⟩,
              ⟨some "Order", some "3"⟩]
            Name := some "PizzaBot"
            ChildDirected := some false
            Locale := some "en-US"
            ClarificationPrompt := some ⟨[⟨some "again?", some "PlainText"⟩], some 5⟩
            AbortStatement :=
              some ⟨[⟨some "bye", some "PlainText"⟩, ⟨some "stop", some "PlainText"⟩]⟩ },
        .failure "checksum mismatch"⟩ : Call)
        ∈ (updateBot lateFailure.service (.ok pizzaUpdate) 0).trace) ∧
    (some "c-17" = storedBot.Checksum ∧ some "PizzaBot" = storedBot.Name ∧
      some "en-US" = storedBot.Locale ∧ some false = storedBot.ChildDirected) :=
  ⟨⟨rfl, by decide⟩,
    updateBot_resubmits_fetched_identity lateFailure.service pizzaUpdate 0 _ storedBot
      { Checksum := some "c-17"
        Intents := [⟨some "Greet", some "1"⟩, ⟨some "Bye", some "4"⟩, ⟨some "Order", some "3"⟩]
        Name := some "PizzaBot"
        ChildDirected := some false
        Locale := some "en-US"
        ClarificationPrompt := some ⟨[⟨some "again?", some "PlainText"⟩], some 5⟩
        AbortStatement :=
          some ⟨[⟨some "bye", some "PlainText"⟩, ⟨some "stop", some "PlainText"⟩]⟩ }
      (.failure "checksum mismatch") rfl (by decide)⟩

/-- C8: when the fetch of an update succeeds, the fetch request carried the name and version
of the body, and the `PutIntent` request that follows has the intent name of the body, its
messages as plain-text conclusion messages in order, its utterances in order, and fulfillment
type `ReturnIntent`. -/
theorem updateBot_intent_request {σ : Type} (svc : LexModelBuildingService σ)
    (body : UpdateBotBody) (s : σ) (fetch : Request) (bot : GetBotOutput)
    (hfetch : (updateBot svc (.ok body) s).trace[0]? = some ⟨fetch, .GetBot bot⟩) :
    fetch = .GetBot ⟨some body.Name, some body.Version⟩ ∧
    ∃ reply : Reply,
      (updateBot svc (.ok body) s).trace[1]?
        = some ⟨.PutIntent
            { Name := some body.IntentName
              ConclusionStatement :=
                some ⟨body.Messages.map (fun val => ⟨some val, some "PlainText"⟩)⟩
              SampleUtterances := body.Utterances
              FulfillmentActivity := some ⟨some "ReturnIntent"⟩ }, reply⟩ := by
  obtain ⟨input0, intent, hi, hn, h⟩ := updateBot_shape svc body s
  rw [plainTextMessages_eq_map, sampleUtterances_eq] at hn
  subst hi hn
  rcases h with ⟨-, -, ht⟩ | ⟨err, -, ht⟩ | ⟨bot0, err, -, ht⟩ |
      ⟨bot0, result0, putBot, hp, ⟨err, -, ht⟩ | ⟨-, ht⟩⟩ <;> rw [ht] at hfetch ⊢ <;>
    simp at hfetch <;> exact ⟨hfetch.1.symm, _, rfl⟩

theorem updateBot_intent_request_witness :
    (updateBot lateFailure.service (.ok pizzaUpdate) 0).trace[0]?
        = some ⟨.GetBot ⟨some "Pizza", some "$LATEST"⟩, .GetBot storedBot⟩ ∧
    (Request.GetBot ⟨some "Pizza", some "$LATEST"⟩
        = .GetBot ⟨some pizzaUpdate.Name, some pizzaUpdate.Version⟩ ∧
      ∃ reply : Reply,
        (updateBot lateFailure.service (.ok pizzaUpdate) 0).trace[1]?
          = some ⟨.PutIntent
              { Name := some pizzaUpdate.IntentName
                ConclusionStatement :=
                  some ⟨pizzaUpdate.Messages.map (fun val => ⟨some val, some "PlainText"⟩)⟩
                SampleUtterances := pizzaUpdate.Utterances
                FulfillmentActivity := some ⟨some "ReturnIntent"⟩ }, reply⟩) :=
  ⟨rfl, updateBot_intent_request lateFailure.service pizzaUpdate 0 _ storedBot rfl⟩

/-! ## Message lists -/

/-- The requests of an update do not change, and neither does its response, when the abort and
clarification content of the fetched bot is replaced. -/
theorem updateBot_ignores_fetched_content {σ : Type} (svc : LexModelBuildingService σ)
    (body : UpdateBotBody) (s : σ) (clarification : Option Prompt) (abort : Option Statement) :
    (updateBot (withFetchedContent svc clarification abort) (.ok body) s).trace.map
        Call.request
      = (updateBot svc (.ok body) s).trace.map Call.request ∧
    (updateBot (withFetchedContent svc clarification abort) (.ok body) s).response
      = (updateBot svc (.ok body) s).response := by
  simp only [updateBot, withFetchedContent]
  rcases svc.NewSession s with e | u
  · exact ⟨rfl, rfl⟩
  · dsimp only
    rcases svc.GetBot ⟨some body.Name, some body.Version⟩ s with ⟨err | bot, s1⟩
    · exact ⟨rfl, rfl⟩
    · dsimp only
      split
      · exact ⟨rfl, rfl⟩
      · split <;> exact ⟨rfl, rfl⟩

/-- C5: on either route, the `PutBot` request carries as abort statement and as clarification
prompt exactly the `abort_messages` and `clarification_prompts` of the body: one plain-text
message per string, in the same order.  In `updateBot` the requests do not depend on the abort
or clarification content of the fetched bot. -/
theorem putBot_messages_are_the_bodys {σ : Type} (svc : LexModelBuildingService σ)
    (req : Inbound) (s : σ) (input : PutBotInput) (reply : Reply)
    (hput : ⟨.PutBot input, reply⟩ ∈ (handle svc req s).trace) :
    input.AbortStatement
      = some ⟨req.abortMessages.map (fun val => ⟨some val, some "PlainText"⟩)⟩ ∧
    input.ClarificationPrompt.map Prompt.Messages
      = some (req.clarificationPrompts.map (fun val => ⟨some val, some "PlainText"⟩)) ∧
    (∀ (body : UpdateBotBody) (clarification : Option Prompt) (abort : Option Statement),
      (updateBot (withFetchedContent svc clarification abort) (.ok body) s).trace.map
          Call.request
        = (updateBot svc (.ok body) s).trace.map Call.request) := by
  refine ⟨?_, ?_, fun body c a => (updateBot_ignores_fetched_content svc body s c a).1⟩ <;>
  · rcases req with (e0 | body) | (e0 | body)
    · simp [handle, createBot] at hput
    · obtain ⟨putBot, putBotAlias, hp, -, h⟩ := createBot_shape svc body s
      rw [plainTextMessages_eq_map, plainTextMessages_eq_map] at hp
      simp only [handle] at hput
      rcases h with ⟨-, -, ht⟩ | ⟨err, -, ht⟩ | ⟨err, -, ht⟩ | ⟨-, ht⟩ <;> rw [ht] at hput <;>
        simp at hput <;> obtain ⟨rfl, -⟩ := hput <;>
        simp [hp, Inbound.abortMessages, Inbound.clarificationPrompts]
    · simp [handle, updateBot] at hput
    · obtain ⟨input0, intent, -, -, h⟩ := updateBot_shape svc body s
      simp only [handle] at hput
      rcases h with ⟨-, -, ht⟩ | ⟨err, -, ht⟩ | ⟨bot0, err, -, ht⟩ |
          ⟨bot0, result0, putBot, hp, ⟨err, -, ht⟩ | ⟨-, ht⟩⟩ <;> rw [ht] at hput <;>
        simp at hput <;> obtain ⟨rfl, -⟩ := hput <;>
        rw [plainTextMessages_eq_map, plainTextMessages_eq_map] at hp <;>
        simp [hp, Inbound.abortMessages, Inbound.clarificationPrompts]

theorem putBot_messages_are_the_bodys_witness :
    ((⟨.PutBot
          { Checksum := some "c-17"
            Intents := [⟨some "Greet", some "1"⟩, ⟨some "Bye", some "4"⟩,
              ⟨some "Order", some "3"⟩]
            Name := some "PizzaBot"
            ChildDirected := some false
            Locale := some "en-US"
            ClarificationPrompt := some ⟨[⟨some "again?", some "PlainText"⟩], some 5⟩
            AbortStatement :=
              some ⟨[⟨some "bye", some "PlainText"⟩, ⟨some "stop", some "PlainText"⟩]⟩ },
        .PutBot⟩ : Call) ∈ (handle allOk.service (.PUT (.ok pizzaUpdate)) 0).trace) ∧
    (some (⟨[⟨some "bye", some "PlainText"⟩, ⟨some "stop", some "PlainText"⟩]⟩ : Statement)
        = some ⟨(Inbound.PUT (.ok pizzaUpdate)).abortMessages.map
            (fun val => ⟨some val, some "PlainText"⟩)⟩ ∧
      some [(⟨some "again?", some "PlainText"⟩ : Message)]
        = some ((Inbound.PUT (.ok pizzaUpdate)).clarificationPrompts.map
            (fun val => ⟨some val, some "PlainText"⟩))) :=
  ⟨by decide,
    (putBot_messages_are_the_bodys allOk.service (.PUT (.ok pizzaUpdate)) 0
      { Checksum := some "c-17"
        Intents := [⟨some "Greet", some "1"⟩, ⟨some "Bye", some "4"⟩, ⟨some "Order", some "3"⟩]
        Name := some "PizzaBot"
        ChildDirected := some false
        Locale := some "en-US"
        ClarificationPrompt := some ⟨[⟨some "again?", some "PlainText"⟩], some 5⟩
        AbortStatement :=
          some ⟨[⟨some "bye", some "PlainText"⟩, ⟨some "stop", some "PlainText"⟩]⟩ }
      .PutBot (by decide)).1,
    (putBot_messages_are_the_bodys allOk.service (.PUT (.ok pizzaUpdate)) 0
      { Checksum := some "c-17"
        Intents := [⟨some "Greet", some "1"⟩, ⟨some "Bye", some "4"⟩, ⟨some "Order", some "3"⟩]
        Name := some "PizzaBot"
        ChildDirected := some false
        Locale := some "en-US"
        ClarificationPrompt := some ⟨[⟨some "again?", some "PlainText"⟩], some 5⟩
        AbortStatement :=
          some ⟨[⟨some "bye", some "PlainText"⟩, ⟨some "stop", some "PlainText"⟩]⟩ }
      .PutBot (by decide)).2.1⟩

/-! ## Determinism -/

/-- Two runs of `createBot` on the same bound body that get the same replies issue the same
calls and give the same response, whatever the two services are. -/
theorem createBot_determined_by_replies {σ₁ σ₂ : Type} (svc₁ : LexModelBuildingService σ₁)
    (svc₂ : LexModelBuildingService σ₂) (body : CreateBotBody) (s₁ : σ₁) (s₂ : σ₂)
    (h : (createBot svc₁ (.ok body) s₁).trace.map Call.reply
      = (createBot svc₂ (.ok body) s₂).trace.map Call.reply) :
    (createBot svc₁ (.ok body) s₁).trace = (createBot svc₂ (.ok body) s₂).trace ∧
      (createBot svc₁ (.ok body) s₁).response = (createBot svc₂ (.ok body) s₂).response := by
  obtain ⟨p₁, a₁, hp₁, ha₁, h₁⟩ := createBot_shape svc₁ body s₁
  obtain ⟨p₂, a₂, hp₂, ha₂, h₂⟩ := createBot_shape svc₂ body s₂
  subst hp₁ ha₁ hp₂ ha₂
  rcases h₁ with ⟨-, hr₁, ht₁⟩ | ⟨e₁, hr₁, ht₁⟩ | ⟨e₁, hr₁, ht₁⟩ | ⟨hr₁, ht₁⟩ <;>
    rcases h₂ with ⟨-, hr₂, ht₂⟩ | ⟨e₂, hr₂, ht₂⟩ | ⟨e₂, hr₂, ht₂⟩ | ⟨hr₂, ht₂⟩ <;>
    rw [ht₁, ht₂] at h <;> simp at h <;> simp [hr₁, hr₂, ht₁, ht₂, h]

/-- Two runs of `updateBot` that get the same replies, on bound bodies that differ at most in
`locale` and `child_directed`, issue the same calls and give the same response, whatever the
two services are. -/
theorem updateBot_determined_by_replies {σ₁ σ₂ : Type} (svc₁ : LexModelBuildingService σ₁)
    (svc₂ : LexModelBuildingService σ₂) (body : UpdateBotBody) (locale : String)
    (childDirected : Bool) (s₁ : σ₁) (s₂ : σ₂)
    (h : (updateBot svc₁ (.ok body) s₁).trace.map Call.reply
      = (updateBot svc₂
          (.ok { body with Locale := locale, ChildDirected := childDirected }) s₂).trace.map
            Call.reply) :
    (updateBot svc₁ (.ok body) s₁).trace
        = (updateBot svc₂
            (.ok { body with Locale := locale, ChildDirected := childDirected }) s₂).trace ∧
      (updateBot svc₁ (.ok body) s₁).response
        = (updateBot svc₂
            (.ok { body with Locale := locale, ChildDirected := childDirected }) s₂).response := by
  obtain ⟨i₁, n₁, hi₁, hn₁, h₁⟩ := updateBot_shape svc₁ body s₁
  obtain ⟨i₂, n₂, hi₂, hn₂, h₂⟩ := updateBot_shape svc₂
    { body with Locale := locale, ChildDirected := childDirected } s₂
  dsimp only at hi₂ hn₂
  subst hi₁ hn₁ hi₂ hn₂
  rcases h₁ with ⟨-, hr₁, ht₁⟩ | ⟨e₁, hr₁, ht₁⟩ | ⟨b₁, e₁, hr₁, ht₁⟩ |
      ⟨b₁, r₁, p₁, hp₁, ⟨e₁, hr₁, ht₁⟩ | ⟨hr₁, ht₁⟩⟩ <;>
    rcases h₂ with ⟨-, hr₂, ht₂⟩ | ⟨e₂, hr₂, ht₂⟩ | ⟨b₂, e₂, hr₂, ht₂⟩ |
      ⟨b₂, r₂, p₂, hp₂, ⟨e₂, hr₂, ht₂⟩ | ⟨hr₂, ht₂⟩⟩ <;>
    rw [ht₁, ht₂] at h <;> simp at h <;> simp_all

/-- The `locale` and `child_directed` of an update body are never read: against one service
and state, changing them changes nothing of what `updateBot` does. -/
theorem updateBot_congr_locale_child_directed {σ : Type} (svc : LexModelBuildingService σ)
    (body : UpdateBotBody) (locale : String) (childDirected : Bool) (s : σ) :
    updateBot svc (.ok { body with Locale := locale, ChildDirected := childDirected }) s
      = updateBot svc (.ok body) s := rfl

/-- C9: on either route, the calls issued (requests and replies, in order) and the HTTP
response are determined by the result of binding the body and by the replies of the remote
service: two runs on the same inbound request that get the same replies, from any two services
in any two states, issue the same calls and give the same response. -/
theorem handle_determined_by_replies {σ₁ σ₂ : Type} (svc₁ : LexModelBuildingService σ₁)
    (svc₂ : LexModelBuildingService σ₂) (req : Inbound) (s₁ : σ₁) (s₂ : σ₂)
    (h : (handle svc₁ req s₁).trace.map Call.reply
      = (handle svc₂ req s₂).trace.map Call.reply) :
    (handle svc₁ req s₁).trace = (handle svc₂ req s₂).trace ∧
      (handle svc₁ req s₁).trace.map Call.request
        = (handle svc₂ req s₂).trace.map Call.request ∧
      (handle svc₁ req s₁).response = (handle svc₂ req s₂).response := by
  have key : (handle svc₁ req s₁).trace = (handle svc₂ req s₂).trace ∧
      (handle svc₁ req s₁).response = (handle svc₂ req s₂).response := by
    rcases req with (e0 | body) | (e0 | body)
    · exact ⟨rfl, rfl⟩
    · exact createBot_determined_by_replies svc₁ svc₂ body s₁ s₂ h
    · exact ⟨rfl, rfl⟩
    · exact updateBot_determined_by_replies svc₁ svc₂ body body.Locale body.ChildDirected
        s₁ s₂ h
  exact ⟨key.1, by rw [key.1], key.2⟩

theorem handle_determined_by_replies_witness :
    (handle allOk.service (.PUT (.ok pizzaUpdate)) 0).trace.map Call.reply
        = (handle ({ allOk with putBotAlias := .error "throttled" } : Script).service
            (.PUT (.ok pizzaUpdate)) 9).trace.map Call.reply ∧
    ((handle allOk.service (.PUT (.ok pizzaUpdate)) 0).trace
        = (handle ({ allOk with putBotAlias := .error "throttled" } : Script).service
            (.PUT (.ok pizzaUpdate)) 9).trace ∧
      (handle allOk.service (.PUT (.ok pizzaUpdate)) 0).trace.map Call.request
        = (handle ({ allOk with putBotAlias := .error "throttled" } : Script).service
            (.PUT (.ok pizzaUpdate)) 9).trace.map Call.request ∧
      (handle allOk.service (.PUT (.ok pizzaUpdate)) 0).response
        = (handle ({ allOk with putBotAlias := .error "throttled" } : Script).service
            (.PUT (.ok pizzaUpdate)) 9).response) :=
  ⟨rfl, handle_determined_by_replies allOk.service
    ({ allOk with putBotAlias := .error "throttled" } : Script).service
    (.PUT (.ok pizzaUpdate)) 0 9 rfl⟩

/-- C10: the `locale` and `child_directed` of the update body have no effect.  Two runs of
`updateBot` on bodies that differ only in these two fields, getting the same replies, issue
the same requests (`GetBot`, `PutIntent`, `PutBot`, with the same contents, in the same order)
and give the same response; against one service in one state the two runs are equal. -/
theorem updateBot_ignores_locale_and_child_directed {σ₁ σ₂ : Type}
    (svc₁ : LexModelBuildingService σ₁) (svc₂ : LexModelBuildingService σ₂)
    (body : UpdateBotBody) (locale : String) (childDirected : Bool) (s₁ : σ₁) (s₂ : σ₂)
    (h : (updateBot svc₁ (.ok body) s₁).trace.map Call.reply
      = (updateBot svc₂
          (.ok { body with Locale := locale, ChildDirected := childDirected }) s₂).trace.map
            Call.reply) :
    (updateBot svc₁ (.ok body) s₁).trace.map Call.request
        = (updateBot svc₂
            (.ok { body with Locale := locale, ChildDirected := childDirected })
              s₂).trace.map Call.request ∧
      (updateBot svc₁ (.ok body) s₁).response
        = (updateBot svc₂
            (.ok { body with Locale := locale, ChildDirected := childDirected }) s₂).response ∧
      updateBot svc₁ (.ok { body with Locale := locale, ChildDirected := childDirected }) s₁
        = updateBot svc₁ (.ok body) s₁ := by
  have key := updateBot_determined_by_replies svc₁ svc₂ body locale childDirected s₁ s₂ h
  exact ⟨by rw [key.1], key.2,
    updateBot_congr_locale_child_directed svc₁ body locale childDirected s₁⟩

theorem updateBot_ignores_locale_and_child_directed_witness :
    (updateBot lateFailure.service (.ok pizzaUpdate) 0).trace.map Call.reply
        = (updateBot lateFailure.service
            (.ok { pizzaUpdate with Locale := "fr-FR", ChildDirected := false }) 4).trace.map
              Call.reply ∧
    ((updateBot lateFailure.service (.ok pizzaUpdate) 0).trace.map Call.request
        = (updateBot lateFailure.service
            (.ok { pizzaUpdate with Locale := "fr-FR", ChildDirected := false }) 4).trace.map
              Call.request ∧
      (updateBot lateFailure.service (.ok pizzaUpdate) 0).response
        = (updateBot lateFailure.service
            (.ok { pizzaUpdate with Locale := "fr-FR", ChildDirected := false }) 4).response ∧
      updateBot lateFailure.service
          (.ok { pizzaUpdate with Locale := "fr-FR", ChildDirected := false }) 0
        = updateBot lateFailure.service (.ok pizzaUpdate) 0) :=
  ⟨rfl, updateBot_ignores_locale_and_child_directed lateFailure.service lateFailure.service
    pizzaUpdate "fr-FR" false 0 4 rfl⟩

end LexDemo
